import Mathlib

/-!
Firmware setting validation against a schema.

A shallow embedding of `CheckSettingIsValid` from
`apis/metal3.io/v1alpha1/firmwareschema_types.go`, together with the library
code it calls: `intstr.IntOrString` with its methods `String` and `IntValue`
(k8s.io/apimachinery/pkg/util/intstr, imported by the source file) and the
decimal conversions `Itoa` and `Atoi` of Go's `strconv` package that those
methods are written with. The library definitions follow the library sources,
specialised to base 10 and a 64 bit `int`.

Conventions of the embedding:

* a Go `string` is a Lean `String`; Go's `len` is `String.utf8ByteSize`
  (number of bytes of the UTF-8 encoding), `==` is equality;
* a Go `int` (64 bit) is an `Int`; where the library wraps around, the
  reduction modulo `2 ^ 64` is written out;
* a pointer field `*int` / `*bool` is an `Option`;
* an `error` is an `Option String`: `none` is `nil`, `some msg` is the
  error whose text is `msg`;
* a `map[string]SettingSchema` is its lookup function
  `String → Option SettingSchema` (`none` is the `!ok` result of the
  two-valued index expression; a nil map and an empty map both answer
  `none` everywhere).
-/

namespace strconv

/-- The two error causes of the numeric conversions (`strconv.ErrSyntax`,
`strconv.ErrRange`). -/
inductive NumError where
  | ErrSyntax
  | ErrRange
deriving DecidableEq, Repr

/-- Size in bits of a Go `int` on the 64 bit platforms the operator is built
for (`strconv.IntSize`). -/
def intSize : Nat := 64

/-- Go `strconv.Itoa`: the decimal text of an `int`, with a leading `-` for a
negative number. It is also what the verb `%d` of `fmt` prints for an `int`. -/
def Itoa (i : Int) : String :=
  if i < 0 then ⟨'-' :: Nat.toDigits 10 i.natAbs⟩ else ⟨Nat.toDigits 10 i.toNat⟩

/-- The range of a Go `int` of `intSize` bits. -/
def isInt (n : Int) : Prop := -2 ^ 63 ≤ n ∧ n < 2 ^ 63

instance (n : Int) : Decidable (isInt n) := by unfold isInt; infer_instance

/-- Largest `uint64` (`maxUint64`). -/
def maxUint64 : Nat := 2 ^ 64 - 1

/-- The digit loop of `strconv.ParseUint(s, 10, 64)`. A byte that is not one
of `0`..`9` ends the loop with a syntax error and result 0 (a letter is a
digit not below the base, any other byte takes the default branch; the bytes
of a multi-byte character are none of them digits). An overflow ends the loop
with a range error and result `maxUint64`. -/
def parseUintLoop (n : Nat) : List Char → Nat × Option NumError
  | [] => (n, none)
  | c :: cs =>
    if '0' ≤ c ∧ c ≤ '9' then
      let d := c.toNat - '0'.toNat
      if n ≥ maxUint64 / 10 + 1 then
        (maxUint64, some NumError.ErrRange)
      else
        let n10 := n * 10
        let n1 := (n10 + d) % 2 ^ 64
        if n1 < n10 ∨ n1 > maxUint64 then
          (maxUint64, some NumError.ErrRange)
        else
          parseUintLoop n1 cs
    else
      (0, some NumError.ErrSyntax)

/-- Go `strconv.ParseUint(s, 10, 64)` on the characters of `s`. -/
def ParseUint (s : List Char) : Nat × Option NumError :=
  if s = [] then (0, some NumError.ErrSyntax) else parseUintLoop 0 s

/-- Go `strconv.ParseInt(s, 10, 0)`: an optional sign, then `ParseUint`; a
syntax error gives 0, a magnitude outside `int` gives the nearest bound with a
range error. -/
def ParseInt (s : String) : Int × Option NumError :=
  match s.data with
  | [] => (0, some NumError.ErrSyntax)
  | c :: cs =>
    let neg : Bool := decide (c = '-')
    let body := if c = '+' ∨ c = '-' then cs else c :: cs
    let r := ParseUint body
    if r.2 = some NumError.ErrSyntax then
      (0, some NumError.ErrSyntax)
    else
      let cutoff : Nat := 2 ^ (intSize - 1)
      if neg = false ∧ r.1 ≥ cutoff then
        ((cutoff : Int) - 1, some NumError.ErrRange)
      else if neg = true ∧ r.1 > cutoff then
        (-(cutoff : Int), some NumError.ErrRange)
      else
        (if neg then -(r.1 : Int) else (r.1 : Int), none)

/-- The digit loop of the fast path of `strconv.Atoi`: `none` when a byte is
not a digit. No overflow is possible, the fast path runs on fewer than 19
bytes. -/
def atoiFastLoop (n : Nat) : List Char → Option Nat
  | [] => some n
  | c :: cs =>
    if '0' ≤ c ∧ c ≤ '9' then atoiFastLoop (n * 10 + (c.toNat - '0'.toNat)) cs
    else none

/-- Go `strconv.Atoi`: the value and the error (`none` is `nil`). Strings of 1
to 18 bytes take the fast path, all others go through `ParseInt`. -/
def Atoi (s : String) : Int × Option NumError :=
  let sLen := s.utf8ByteSize
  if 0 < sLen ∧ sLen < 19 then
    match s.data with
    | [] => (0, some NumError.ErrSyntax)
    | c :: cs =>
      let body := if c = '-' ∨ c = '+' then cs else c :: cs
      if body = [] then
        (0, some NumError.ErrSyntax)
      else
        match atoiFastLoop 0 body with
        | none => (0, some NumError.ErrSyntax)
        | some n => (if c = '-' then -(n : Int) else (n : Int), none)
  else
    ParseInt s

end strconv

namespace intstr

/-- The tag `intstr.Int` of `IntOrString.Type`. -/
def TypeInt : Int := 0

/-- The tag `intstr.String` of `IntOrString.Type`. -/
def TypeString : Int := 1

/-- Go `intstr.IntOrString`: a value that holds an `int32` or a string. The
field `Type` is spelled `Typ`; `IntVal` is an `int32`. -/
structure IntOrString where
  Typ : Int
  IntVal : Int
  StrVal : String
deriving DecidableEq, Repr

/-- The range of an `int32`, the type of `IntVal`. -/
def isInt32 (n : Int) : Prop := -2 ^ 31 ≤ n ∧ n < 2 ^ 31

instance (n : Int) : Decidable (isInt32 n) := by unfold isInt32; infer_instance

/-- Go `intstr.FromInt32`. -/
def FromInt32 (val : Int) : IntOrString :=
  { Typ := TypeInt, IntVal := val, StrVal := "" }

/-- Go `intstr.FromString`. -/
def FromString (val : String) : IntOrString :=
  { Typ := TypeString, IntVal := 0, StrVal := val }

/-- Go `(*IntOrString).IntValue`: the integer, or the result of `Atoi` on the
string with the error dropped (`i, _ := strconv.Atoi(intstr.StrVal)`). -/
def IntOrString.IntValue (v : IntOrString) : Int :=
  if v.Typ = TypeString then (strconv.Atoi v.StrVal).1 else v.IntVal

/-- Go `(*IntOrString).String`: the string, or the decimal text of the
integer. -/
def IntOrString.String (v : IntOrString) : String :=
  if v.Typ = TypeString then v.StrVal else strconv.Itoa v.IntValue

end intstr

namespace v1alpha1

open intstr

/-- Go `SettingSchema`: additional data describing the firmware setting. -/
structure SettingSchema where
  AttributeType : String
  AllowableValues : List String
  LowerBound : Option Int
  UpperBound : Option Int
  MinLength : Option Int
  MaxLength : Option Int
  ReadOnly : Option Bool
  ResetRequired : Option Bool
  Unique : Option Bool
deriving DecidableEq, Repr

/-- A `map[string]SettingSchema`, as its lookup function. -/
abbrev SchemaMap := String → Option SettingSchema

/-- The empty (or nil) schema map. -/
def emptySchemas : SchemaMap := fun _ => none

/-- The map with the single entry `key ↦ schema`. -/
def singleSchema (key : String) (schema : SettingSchema) : SchemaMap :=
  fun k => if k = key then some schema else none

/-- The loop over `schema.AllowableValues` of the `Enumeration` case:
`true` when it returns `nil` at some member equal to the string. -/
def enumLoop (str : String) : List String → Bool
  | [] => false
  | av :: rest => if str = av then true else enumLoop str rest

/-- Go `(*FirmwareSchema).CheckSettingIsValid` (the receiver is not used):
check whether the setting's name and value is valid using the schema. -/
def CheckSettingIsValid (name : String) (value : IntOrString) (schemas : SchemaMap) :
    Option String :=
  match schemas name with
  | none => some ("Setting " ++ name ++ " is not in the schema")
  | some schema =>
    if schema.ReadOnly = some true then
      some ("Setting " ++ name ++ " is ReadOnly")
    else if schema.AttributeType = "Enumeration" then
      if enumLoop value.String schema.AllowableValues then none
      else some ("Setting " ++ name ++ " uses invalid enum " ++ value.String)
    else if schema.AttributeType = "Integer" then
      match schema.LowerBound, schema.UpperBound with
      | some lo, some hi =>
        if value.IntValue ≥ lo ∧ value.IntValue ≤ hi then none
        else some ("Setting " ++ name ++ " integer " ++ value.String ++
          " is out of range, " ++ strconv.Itoa lo ++ " - " ++ strconv.Itoa hi)
      | _, _ => none
    else if schema.AttributeType = "String" then
      match schema.MinLength, schema.MaxLength with
      | some lo, some hi =>
        let strLen : Int := value.String.utf8ByteSize
        if strLen ≥ lo ∧ strLen ≤ hi then none
        else some ("Setting " ++ name ++ " string " ++ value.String ++
          " length is out of range, " ++ strconv.Itoa lo ++ " - " ++ strconv.Itoa hi)
      | _, _ => none
    else if schema.AttributeType = "Boolean" then
      if value.String = "true" ∨ value.String = "false" then none
      else some ("Setting " ++ name ++ " is not a boolean - " ++ value.String)
    else if schema.AttributeType = "Password" then
      some ("Setting " ++ name ++ " is a Password type")
    else if schema.AttributeType = "" then
      none
    else
      some ("Setting " ++ name ++ " has an unexpected attribute type " ++ schema.AttributeType)

/-- A schema entry with only the type set. -/
def typedSchema (t : String) : SettingSchema :=
  { AttributeType := t, AllowableValues := [], LowerBound := none, UpperBound := none,
    MinLength := none, MaxLength := none, ReadOnly := none, ResetRequired := none,
    Unique := none }

/-- A run-time panic of the Go program. -/
inductive Panic where
  | nilDereference
deriving DecidableEq, Repr

/-- The pointer dereference `*p`: it panics when the pointer is nil. -/
def deref {α : Type} : Option α → Except Panic α
  | some a => Except.ok a
  | none => Except.error Panic.nilDereference

/-- Go `(*FirmwareSchema).CheckSettingIsValid` once more, with every `*p` of
the source written as `deref p`, so that a nil dereference is a visible
outcome (`Except.error`), and with the short-circuit evaluation of `&&` and
`||` kept. -/
def CheckSettingIsValidPtr (name : String) (value : IntOrString) (schemas : SchemaMap) :
    Except Panic (Option String) :=
  match schemas name with
  | none => pure (some ("Setting " ++ name ++ " is not in the schema"))
  | some schema => do
    let readOnly ←
      (if schema.ReadOnly ≠ none then do
        let b ← deref schema.ReadOnly
        pure (b == true)
      else pure false)
    if readOnly then
      pure (some ("Setting " ++ name ++ " is ReadOnly"))
    else if schema.AttributeType = "Enumeration" then
      if enumLoop value.String schema.AllowableValues then pure none
      else pure (some ("Setting " ++ name ++ " uses invalid enum " ++ value.String))
    else if schema.AttributeType = "Integer" then
      if schema.LowerBound = none ∨ schema.UpperBound = none then pure none
      else do
        let lo ← deref schema.LowerBound
        let inRange ←
          (if value.IntValue ≥ lo then do
            let hi ← deref schema.UpperBound
            pure (decide (value.IntValue ≤ hi))
          else pure false)
        if inRange then pure none
        else do
          let lo ← deref schema.LowerBound
          let hi ← deref schema.UpperBound
          pure (some ("Setting " ++ name ++ " integer " ++ value.String ++
            " is out of range, " ++ strconv.Itoa lo ++ " - " ++ strconv.Itoa hi))
    else if schema.AttributeType = "String" then
      if schema.MinLength = none ∨ schema.MaxLength = none then pure none
      else do
        let strLen : Int := value.String.utf8ByteSize
        let lo ← deref schema.MinLength
        let inRange ←
          (if strLen ≥ lo then do
            let hi ← deref schema.MaxLength
            pure (decide (strLen ≤ hi))
          else pure false)
        if inRange then pure none
        else do
          let lo ← deref schema.MinLength
          let hi ← deref schema.MaxLength
          pure (some ("Setting " ++ name ++ " string " ++ value.String ++
            " length is out of range, " ++ strconv.Itoa lo ++ " - " ++ strconv.Itoa hi))
    else if schema.AttributeType = "Boolean" then
      if value.String = "true" ∨ value.String = "false" then pure none
      else pure (some ("Setting " ++ name ++ " is not a boolean - " ++ value.String))
    else if schema.AttributeType = "Password" then
      pure (some ("Setting " ++ name ++ " is a Password type"))
    else if schema.AttributeType = "" then
      pure none
    else
      pure (some ("Setting " ++ name ++ " has an unexpected attribute type " ++
        schema.AttributeType))

/-- The map `schemas` with the entry `key ↦ schema` stored in it
(`schemas[key] = schema`). -/
def SchemaMap.store (schemas : SchemaMap) (key : String) (schema : SettingSchema) : SchemaMap :=
  fun k => if k = key then some schema else schemas k

/-- The six attribute types that the switch of `CheckSettingIsValid` names. -/
def knownTypes : List String := ["Enumeration", "Integer", "String", "Boolean", "Password", ""]

/-- The text `sub` occurs in the text `text` (Go `strings.Contains`). -/
def containsText (text sub : String) : Prop := sub.data <:+: text.data

instance (text sub : String) : Decidable (containsText text sub) := by
  unfold containsText; infer_instance

end v1alpha1

namespace bmc

/-- Modelled from the spec: the declaration of the type `Credentials` is not
among the source files; these are the two fields that `DriverInfo` reads from
it. -/
structure Credentials where
  Username : String
  Password : String
deriving DecidableEq, Repr

/-- A value stored in the `map[string]interface{}` that `DriverInfo` builds:
a string or a boolean. -/
inductive DriverValue where
  | str (s : String)
  | bool (b : Bool)
deriving DecidableEq, Repr

/-- A `map[string]interface{}`, as its lookup function (`none`: the key is
not in the map). -/
abbrev DriverInfoMap := String → Option DriverValue

/-- The map without keys. -/
def DriverInfoMap.empty : DriverInfoMap := fun _ => none

/-- The assignment `m[key] = v`. -/
def DriverInfoMap.set (m : DriverInfoMap) (key : String) (v : DriverValue) : DriverInfoMap :=
  fun k => if k = key then some v else m k

/-- Go `iLOAccessDetails`. -/
structure iLOAccessDetails where
  bmcType : String
  portNum : String
  hostname : String
  disableCertificateVerification : Bool
deriving DecidableEq, Repr

/-- Go `(*iLOAccessDetails).DriverInfo`: the data structure to pass as the
DriverInfo parameter when creating a node in Ironic, pre-populated with the
access information. -/
def iLOAccessDetails.DriverInfo (a : iLOAccessDetails) (bmcCreds : Credentials) :
    DriverInfoMap :=
  let result : DriverInfoMap :=
    ((DriverInfoMap.empty.set "ilo_username" (DriverValue.str bmcCreds.Username)).set
      "ilo_password" (DriverValue.str bmcCreds.Password)).set
      "ilo_address" (DriverValue.str a.hostname)
  let result :=
    if a.disableCertificateVerification then
      result.set "ilo_verify_ca" (DriverValue.bool false)
    else result
  let result :=
    if a.portNum ≠ "" then result.set "client_port" (DriverValue.str a.portNum) else result
  result

end bmc

open strconv intstr v1alpha1

/-! ## Reduction of the validator on a present, writable entry -/

theorem check_integer_bounds (name : String) (value : IntOrString) (schemas : SchemaMap)
    (schema : SettingSchema) (lo hi : Int)
    (hentry : schemas name = some schema) (hro : schema.ReadOnly ≠ some true)
    (hty : schema.AttributeType = "Integer")
    (hlo : schema.LowerBound = some lo) (hhi : schema.UpperBound = some hi) :
    CheckSettingIsValid name value schemas =
      if value.IntValue ≥ lo ∧ value.IntValue ≤ hi then none
      else some ("Setting " ++ name ++ " integer " ++ value.String ++
        " is out of range, " ++ Itoa lo ++ " - " ++ Itoa hi) := by
  simp [CheckSettingIsValid, hentry, hro, hty, hlo, hhi]

theorem check_enumeration (name : String) (value : IntOrString) (schemas : SchemaMap)
    (schema : SettingSchema)
    (hentry : schemas name = some schema) (hro : schema.ReadOnly ≠ some true)
    (hty : schema.AttributeType = "Enumeration") :
    CheckSettingIsValid name value schemas =
      if enumLoop value.String schema.AllowableValues then none
      else some ("Setting " ++ name ++ " uses invalid enum " ++ value.String) := by
  simp [CheckSettingIsValid, hentry, hro, hty]

theorem enumLoop_iff (str : String) (avs : List String) :
    enumLoop str avs = true ↔ str ∈ avs := by
  induction avs with
  | nil => simp [enumLoop]
  | cons av rest ih =>
    by_cases h : str = av
    · simp [enumLoop, h]
    · simp [enumLoop, h, ih]

/-! ## Decimal digits -/


theorem digitChar_spec : ∀ k, k < 10 →
    ('0' ≤ Nat.digitChar k ∧ Nat.digitChar k ≤ '9' ∧
      (Nat.digitChar k).toNat - '0'.toNat = k) := by
  decide

theorem toDigitsCore_mem (f : Nat) : ∀ (n : Nat) (ds : List Char) (c : Char),
    c ∈ Nat.toDigitsCore 10 f n ds → c ∈ ds ∨ ('0' ≤ c ∧ c ≤ '9') := by
  induction f with
  | zero => intro n ds c h; simpa [Nat.toDigitsCore] using Or.inl h
  | succ f ih =>
    intro n ds c h
    have hd := digitChar_spec (n % 10) (Nat.mod_lt _ (by decide))
    simp only [Nat.toDigitsCore] at h
    split at h
    · rcases List.mem_cons.mp h with rfl | h
      · exact Or.inr ⟨hd.1, hd.2.1⟩
      · exact Or.inl h
    · rcases ih _ _ _ h with h | h
      · rcases List.mem_cons.mp h with rfl | h
        · exact Or.inr ⟨hd.1, hd.2.1⟩
        · exact Or.inl h
      · exact Or.inr h

theorem toDigits_digit (n : Nat) (c : Char) (h : c ∈ Nat.toDigits 10 n) : '0' ≤ c ∧ c ≤ '9' := by
  rcases toDigitsCore_mem _ _ _ _ h with h | h
  · simp at h
  · exact h

theorem toDigitsCore_length_ge (f : Nat) : ∀ (n : Nat) (ds : List Char),
    ds.length ≤ (Nat.toDigitsCore 10 f n ds).length := by
  induction f with
  | zero => intro n ds; simp [Nat.toDigitsCore]
  | succ f ih =>
    intro n ds
    simp only [Nat.toDigitsCore]
    split
    · simp
    · exact le_trans (by simp) (ih _ _)

theorem toDigits_ne_nil (n : Nat) : Nat.toDigits 10 n ≠ [] := by
  intro h
  have h1 : (Nat.toDigits 10 n).length = 0 := by simp [h]
  unfold Nat.toDigits at h1
  simp only [Nat.toDigitsCore] at h1
  split at h1
  · simp at h1
  · have := toDigitsCore_length_ge n (n / 10) [Nat.digitChar (n % 10)]
    simp at this
    omega

/-! ## `Atoi` inverts `Itoa` -/

theorem atoiFastLoop_toDigitsCore (f : Nat) : ∀ (n : Nat) (ds : List Char), n < f →
    atoiFastLoop 0 (Nat.toDigitsCore 10 f n ds) = atoiFastLoop n ds := by
  induction f with
  | zero => intro n ds h; omega
  | succ f ih =>
    intro n ds h
    obtain ⟨h1, h2, h3⟩ := digitChar_spec (n % 10) (Nat.mod_lt _ (by decide))
    have hstep : ∀ acc : Nat, atoiFastLoop acc ((n % 10).digitChar :: ds) =
        atoiFastLoop (acc * 10 + n % 10) ds := by
      intro acc
      rw [atoiFastLoop, if_pos ⟨h1, h2⟩, h3]
    simp only [Nat.toDigitsCore]
    split
    · rw [hstep]
      congr 1
      omega
    · rw [ih (n / 10) _ (by omega), hstep]
      congr 1
      omega

theorem atoiFastLoop_toDigits (n : Nat) : atoiFastLoop 0 (Nat.toDigits 10 n) = some n := by
  unfold Nat.toDigits
  rw [atoiFastLoop_toDigitsCore (n + 1) n [] (by omega)]
  rfl

theorem parseUintLoop_toDigitsCore (f : Nat) : ∀ (n : Nat) (ds : List Char), n < f →
    n < 2 ^ 64 → parseUintLoop 0 (Nat.toDigitsCore 10 f n ds) = parseUintLoop n ds := by
  induction f with
  | zero => intro n ds h; omega
  | succ f ih =>
    intro n ds h hn
    obtain ⟨h1, h2, h3⟩ := digitChar_spec (n % 10) (Nat.mod_lt _ (by decide))
    have hstep : ∀ acc : Nat, acc * 10 + n % 10 < 2 ^ 64 →
        parseUintLoop acc ((n % 10).digitChar :: ds) =
          parseUintLoop (acc * 10 + n % 10) ds := by
      intro acc hacc
      have hc : ¬ acc ≥ maxUint64 / 10 + 1 := by
        simp only [maxUint64]
        omega
      have hmod : (acc * 10 + n % 10) % 2 ^ 64 = acc * 10 + n % 10 := Nat.mod_eq_of_lt hacc
      have hov : ¬ (acc * 10 + n % 10 < acc * 10 ∨ acc * 10 + n % 10 > maxUint64) := by
        simp only [maxUint64]
        omega
      rw [parseUintLoop, if_pos ⟨h1, h2⟩]
      simp only [h3, hmod, if_neg hc, if_neg hov]
    simp only [Nat.toDigitsCore]
    split
    · rw [hstep 0 (by omega)]
      congr 1
      omega
    · rw [ih (n / 10) _ (by omega) (by omega), hstep (n / 10) (by omega)]
      congr 1
      omega

theorem parseUintLoop_toDigits (n : Nat) (hn : n < 2 ^ 64) :
    parseUintLoop 0 (Nat.toDigits 10 n) = (n, none) := by
  unfold Nat.toDigits
  rw [parseUintLoop_toDigitsCore (n + 1) n [] (by omega) hn]
  rfl

theorem digit_ne_sign (c : Char) (hc : '0' ≤ c ∧ c ≤ '9') : c ≠ '-' ∧ c ≠ '+' := by
  constructor
  · intro h
    rw [h] at hc
    exact absurd hc.1 (by decide)
  · intro h
    rw [h] at hc
    exact absurd hc.1 (by decide)

theorem ParseInt_Itoa (n : Int) (h : isInt n) : ParseInt (Itoa n) = (n, none) := by
  obtain ⟨hlo, hhi⟩ := h
  by_cases hneg : n < 0
  · have hne := toDigits_ne_nil n.natAbs
    have hloop := parseUintLoop_toDigits n.natAbs (by omega)
    have hcut : n.natAbs ≤ 9223372036854775808 := by omega
    have hback : -|n| = n := by rw [abs_of_neg hneg, neg_neg]
    simp [ParseInt, ParseUint, Itoa, intSize, hneg, hne, hloop, hcut, hback]
  · have hne := toDigits_ne_nil n.toNat
    have hloop := parseUintLoop_toDigits n.toNat (by omega)
    have hcut : n.toNat < 9223372036854775808 := by omega
    have hback : (n.toNat : Int) = n := by omega
    have hback2 : max n 0 = n := by omega
    simp only [ParseInt, Itoa, hneg, if_false]
    cases hL : Nat.toDigits 10 n.toNat with
    | nil => exact absurd hL hne
    | cons c cs =>
      obtain ⟨hc1, hc2⟩ := digit_ne_sign c (toDigits_digit n.toNat c (by simp [hL]))
      rw [hL] at hloop
      simp [ParseUint, intSize, hc1, hc2, hloop, hcut, hback, hback2]

theorem Atoi_Itoa (n : Int) (h : isInt n) : Atoi (Itoa n) = (n, none) := by
  by_cases hlen : 0 < (Itoa n).utf8ByteSize ∧ (Itoa n).utf8ByteSize < 19
  · simp only [Atoi, hlen, and_self, if_true]
    by_cases hneg : n < 0
    · have hne := toDigits_ne_nil n.natAbs
      have hloop := atoiFastLoop_toDigits n.natAbs
      have hback : -|n| = n := by rw [abs_of_neg hneg, neg_neg]
      simp [Itoa, hneg, hne, hloop, hback]
    · have hne := toDigits_ne_nil n.toNat
      have hloop := atoiFastLoop_toDigits n.toNat
      have hback : (n.toNat : Int) = n := by omega
      have hback2 : max n 0 = n := by omega
      simp only [Itoa, hneg, if_false]
      cases hL : Nat.toDigits 10 n.toNat with
      | nil => exact absurd hL hne
      | cons c cs =>
        obtain ⟨hc1, hc2⟩ := digit_ne_sign c (toDigits_digit n.toNat c (by simp [hL]))
        rw [hL] at hloop
        simp [hc1, hc2, hloop, hback, hback2]
  · simp only [Atoi, hlen, if_false]
    exact ParseInt_Itoa n h

theorem check_string_bounds (name : String) (value : IntOrString) (schemas : SchemaMap)
    (schema : SettingSchema) (lo hi : Int)
    (hentry : schemas name = some schema) (hro : schema.ReadOnly ≠ some true)
    (hty : schema.AttributeType = "String")
    (hlo : schema.MinLength = some lo) (hhi : schema.MaxLength = some hi) :
    CheckSettingIsValid name value schemas =
      if (value.String.utf8ByteSize : Int) ≥ lo ∧ (value.String.utf8ByteSize : Int) ≤ hi then none
      else some ("Setting " ++ name ++ " string " ++ value.String ++
        " length is out of range, " ++ Itoa lo ++ " - " ++ Itoa hi) := by
  simp [CheckSettingIsValid, hentry, hro, hty, hlo, hhi]

theorem check_string_unbounded (name : String) (value : IntOrString) (schemas : SchemaMap)
    (schema : SettingSchema)
    (hentry : schemas name = some schema) (hro : schema.ReadOnly ≠ some true)
    (hty : schema.AttributeType = "String")
    (hb : schema.MinLength = none ∨ schema.MaxLength = none) :
    CheckSettingIsValid name value schemas = none := by
  rcases hb with hb | hb
  · simp [CheckSettingIsValid, hentry, hro, hty, hb]
  · cases hmin : schema.MinLength <;> simp [CheckSettingIsValid, hentry, hro, hty, hb, hmin]

theorem check_boolean (name : String) (value : IntOrString) (schemas : SchemaMap)
    (schema : SettingSchema)
    (hentry : schemas name = some schema) (hro : schema.ReadOnly ≠ some true)
    (hty : schema.AttributeType = "Boolean") :
    CheckSettingIsValid name value schemas =
      if value.String = "true" ∨ value.String = "false" then none
      else some ("Setting " ++ name ++ " is not a boolean - " ++ value.String) := by
  simp [CheckSettingIsValid, hentry, hro, hty]

theorem check_congr (name : String) (v w : IntOrString) (schemas : SchemaMap)
    (hs : v.String = w.String) (hi : v.IntValue = w.IntValue) :
    CheckSettingIsValid name v schemas = CheckSettingIsValid name w schemas := by
  simp only [CheckSettingIsValid, hs, hi]

theorem utf8Len_ge_length (l : List Char) : l.length ≤ String.utf8Len l := by
  induction l with
  | nil => simp
  | cons c cs ih =>
    have := Char.utf8Size_pos c
    simp only [String.utf8Len_cons, List.length_cons]
    omega

theorem utf8Len_eq_length_iff (l : List Char) :
    String.utf8Len l = l.length ↔ ∀ c ∈ l, c.utf8Size = 1 := by
  induction l with
  | nil => simp
  | cons c cs ih =>
    have h1 := Char.utf8Size_pos c
    have h2 := utf8Len_ge_length cs
    simp only [String.utf8Len_cons, List.length_cons, List.mem_cons, forall_eq_or_imp]
    constructor
    · intro h
      have hc : c.utf8Size = 1 := by omega
      exact ⟨hc, ih.mp (by omega)⟩
    · rintro ⟨hc, hcs⟩
      have := ih.mpr hcs
      omega

theorem Itoa_head (n : Int) :
    ∃ c cs, (Itoa n).data = c :: cs ∧ (c = '-' ∨ ('0' ≤ c ∧ c ≤ '9')) := by
  by_cases hneg : n < 0
  · exact ⟨'-', Nat.toDigits 10 n.natAbs, by simp [Itoa, hneg], Or.inl rfl⟩
  · cases hL : Nat.toDigits 10 n.toNat with
    | nil => exact absurd hL (toDigits_ne_nil _)
    | cons c cs =>
      exact ⟨c, cs, by simp [Itoa, hneg, hL], Or.inr (toDigits_digit n.toNat c (by simp [hL]))⟩

theorem Itoa_ne_true_false (n : Int) : Itoa n ≠ "true" ∧ Itoa n ≠ "false" := by
  obtain ⟨c, cs, hd, hc⟩ := Itoa_head n
  constructor
  · intro h
    rw [h] at hd
    have hc2 : 't' = c := by
      have := congrArg List.head? hd
      simpa using this
    subst hc2
    rcases hc with hc | hc
    · exact absurd hc (by decide)
    · exact absurd hc.2 (by decide)
  · intro h
    rw [h] at hd
    have hc2 : 'f' = c := by
      have := congrArg List.head? hd
      simpa using this
    subst hc2
    rcases hc with hc | hc
    · exact absurd hc (by decide)
    · exact absurd hc.2 (by decide)

/-! ## Outcomes of the validator -/

theorem setting_text_ne (name msg t : String) (c : Char) (rest : List Char)
    (hmsg : msg.data = "Setting ".data ++ (name.data ++ ' ' :: c :: rest)) (hc : c ≠ 'h') :
    msg ≠ "Setting " ++ name ++ " has an unexpected attribute type " ++ t := by
  intro h
  have h2 := congrArg String.data h
  rw [hmsg] at h2
  simp only [String.data_append, List.append_assoc] at h2
  have h3 := List.append_cancel_left (List.append_cancel_left h2)
  have h4 : (" has an unexpected attribute type ".data ++ t.data) =
      ' ' :: 'h' :: ("as an unexpected attribute type ".data ++ t.data) := rfl
  rw [h4] at h3
  simp only [List.cons.injEq, true_and] at h3
  exact hc h3.1

theorem checkPtr_eq_ok (name : String) (value : IntOrString) (schemas : SchemaMap) :
    CheckSettingIsValidPtr name value schemas =
      Except.ok (CheckSettingIsValid name value schemas) := by
  unfold CheckSettingIsValidPtr CheckSettingIsValid
  cases hs : schemas name with
  | none => rfl
  | some schema =>
    have hread : (if schema.ReadOnly ≠ none then
          (deref schema.ReadOnly >>= fun b => (pure (b == true) : Except Panic Bool))
        else pure false) = Except.ok (decide (schema.ReadOnly = some true)) := by
      cases hro : schema.ReadOnly with
      | none => rfl
      | some b => cases b <;> rfl
    simp only [hread]
    show (match (Except.ok (decide (schema.ReadOnly = some true)) : Except Panic Bool) with
      | Except.error e => Except.error e
      | Except.ok v => _) = _
    simp only []
    by_cases hro : schema.ReadOnly = some true
    · simp [hro]; rfl
    · simp only [hro, decide_False, Bool.false_eq_true, if_false]
      by_cases h1 : schema.AttributeType = "Enumeration"
      · simp only [h1, if_true]
        split <;> rfl
      · simp only [h1, if_false]
        by_cases h2 : schema.AttributeType = "Integer"
        · simp only [h2, if_true]
          cases hlo : schema.LowerBound with
          | none => simp; rfl
          | some lo =>
            cases hhi : schema.UpperBound with
            | none => simp; rfl
            | some hi =>
              by_cases hge : value.IntValue ≥ lo <;> by_cases hle : value.IntValue ≤ hi <;>
                simp [deref, bind, Except.bind, pure, Except.pure, hge, hle]
        · simp only [h2, if_false]
          by_cases h3 : schema.AttributeType = "String"
          · simp only [h3, if_true]
            cases hlo : schema.MinLength with
            | none => simp; rfl
            | some lo =>
              cases hhi : schema.MaxLength with
              | none => simp; rfl
              | some hi =>
                by_cases hge : (value.String.utf8ByteSize : Int) ≥ lo <;>
                  by_cases hle : (value.String.utf8ByteSize : Int) ≤ hi <;>
                  simp [deref, bind, Except.bind, pure, Except.pure, hge, hle]
          · simp only [h3, if_false]
            by_cases h4 : schema.AttributeType = "Boolean"
            · simp only [h4, if_true]
              split <;> rfl
            · simp only [h4, if_false]
              by_cases h5 : schema.AttributeType = "Password"
              · simp only [h5, if_true]
                rfl
              · simp only [h5, if_false]
                split <;> rfl

theorem check_outcome (name : String) (value : IntOrString) (schemas : SchemaMap) :
    CheckSettingIsValid name value schemas = none ∨
    ∃ (msg : String) (c : Char) (rest : List Char),
      CheckSettingIsValid name value schemas = some msg ∧
      msg.data = "Setting ".data ++ (name.data ++ ' ' :: c :: rest) ∧
      (c = 'h' → ∃ schema, schemas name = some schema ∧ schema.ReadOnly ≠ some true ∧
        schema.AttributeType ∉ knownTypes ∧
        msg = "Setting " ++ name ++ " has an unexpected attribute type " ++
          schema.AttributeType) := by
  unfold CheckSettingIsValid
  cases hs : schemas name with
  | none =>
    exact Or.inr ⟨_, 'i', _, rfl,
      by simp only [String.data_append, List.append_assoc]; rfl, fun h => absurd h (by decide)⟩
  | some schema =>
    simp only []
    by_cases hro : schema.ReadOnly = some true
    · simp only [hro, if_true]
      exact Or.inr ⟨_, 'i', _, rfl,
        by simp only [String.data_append, List.append_assoc]; rfl, fun h => absurd h (by decide)⟩
    · simp only [hro, if_false]
      by_cases h1 : schema.AttributeType = "Enumeration"
      · simp only [h1, if_true]
        split
        · exact Or.inl rfl
        · exact Or.inr ⟨_, 'u', _, rfl,
            by simp only [String.data_append, List.append_assoc]; rfl, fun h => absurd h (by decide)⟩
      · simp only [h1, if_false]
        by_cases h2 : schema.AttributeType = "Integer"
        · simp only [h2, if_true]
          split
          · split
            · exact Or.inl rfl
            · exact Or.inr ⟨_, 'i', _, rfl,
                by simp only [String.data_append, List.append_assoc]; rfl, fun h => absurd h (by decide)⟩
          · exact Or.inl rfl
        · simp only [h2, if_false]
          by_cases h3 : schema.AttributeType = "String"
          · simp only [h3, if_true]
            split
            · split
              · exact Or.inl rfl
              · exact Or.inr ⟨_, 's', _, rfl,
                  by simp only [String.data_append, List.append_assoc]; rfl, fun h => absurd h (by decide)⟩
            · exact Or.inl rfl
          · simp only [h3, if_false]
            by_cases h4 : schema.AttributeType = "Boolean"
            · simp only [h4, if_true]
              split
              · exact Or.inl rfl
              · exact Or.inr ⟨_, 'i', _, rfl,
                  by simp only [String.data_append, List.append_assoc]; rfl, fun h => absurd h (by decide)⟩
            · simp only [h4, if_false]
              by_cases h5 : schema.AttributeType = "Password"
              · simp only [h5, if_true]
                exact Or.inr ⟨_, 'i', _, rfl,
                  by simp only [String.data_append, List.append_assoc]; rfl, fun h => absurd h (by decide)⟩
              · simp only [h5, if_false]
                by_cases h6 : schema.AttributeType = ""
                · exact Or.inl (by simp only [h6, if_true])
                · simp only [h6, if_false]
                  refine Or.inr ⟨_, 'h', _, rfl,
                    by simp only [String.data_append, List.append_assoc]; rfl, fun _ => ?_⟩
                  refine ⟨schema, rfl, hro, ?_, rfl⟩
                  simp [knownTypes, h1, h2, h3, h4, h5, h6]

/-! ## Values of `Atoi` on strings it does not parse -/

theorem ParseInt_error_value (s : String) :
    ((ParseInt s).2 = some NumError.ErrSyntax → (ParseInt s).1 = 0) ∧
    ((ParseInt s).2 = some NumError.ErrRange →
      (s.data.head? = some '-' → (ParseInt s).1 = -2 ^ 63) ∧
      (s.data.head? ≠ some '-' → (ParseInt s).1 = 2 ^ 63 - 1)) := by
  unfold ParseInt
  cases s.data with
  | nil => simp
  | cons c cs =>
    simp only [List.head?_cons, Option.some.injEq]
    by_cases hc : c = '-'
    · subst hc
      split_ifs <;> simp_all [intSize]
    · split_ifs <;> simp_all [intSize]

theorem Atoi_error_value (s : String) :
    ((Atoi s).2 = some NumError.ErrSyntax → (Atoi s).1 = 0) ∧
    ((Atoi s).2 = some NumError.ErrRange →
      (s.data.head? = some '-' → (Atoi s).1 = -2 ^ 63) ∧
      (s.data.head? ≠ some '-' → (Atoi s).1 = 2 ^ 63 - 1)) := by
  unfold Atoi
  simp only []
  split_ifs with hlen
  · cases s.data with
    | nil => simp
    | cons c cs =>
      simp only []
      split_ifs <;> first | (simp; done) | (split <;> simp)
  · exact ParseInt_error_value s

/-! ## The claims -/

/-- C1: a name without an entry in the schema table is rejected with the
"not in the schema" error, for every table and every value; with the empty
table every call is rejected this way. -/
theorem unknown_setting_rejected (name : String) (value : IntOrString) (schemas : SchemaMap)
    (h : schemas name = none) :
    CheckSettingIsValid name value schemas = some ("Setting " ++ name ++ " is not in the schema")
    ∧ CheckSettingIsValid name value emptySchemas =
        some ("Setting " ++ name ++ " is not in the schema") := by
  simp [CheckSettingIsValid, h, emptySchemas]

theorem unknown_setting_rejected_witness :
    singleSchema "BootMode" (typedSchema "") "ProcTurbo" = none ∧
    CheckSettingIsValid "ProcTurbo" (FromInt32 7) (singleSchema "BootMode" (typedSchema ""))
      = some "Setting ProcTurbo is not in the schema" :=
  ⟨by decide, (unknown_setting_rejected "ProcTurbo" (FromInt32 7)
    (singleSchema "BootMode" (typedSchema "")) (by decide)).1⟩

/-- C2: an entry whose `read_only` is present and true is rejected with the
read-only error, for every value, every attribute type and whatever the other
fields hold. -/
theorem read_only_rejected (name : String) (value : IntOrString) (schemas : SchemaMap)
    (schema : SettingSchema)
    (hentry : schemas name = some schema) (hro : schema.ReadOnly = some true) :
    CheckSettingIsValid name value schemas = some ("Setting " ++ name ++ " is ReadOnly") := by
  simp [CheckSettingIsValid, hentry, hro]

theorem read_only_rejected_witness :
    CheckSettingIsValid "BootMode" (FromString "UEFI")
      (singleSchema "BootMode"
        { typedSchema "Enumeration" with AllowableValues := ["UEFI"], ReadOnly := some true })
      = some "Setting BootMode is ReadOnly" :=
  read_only_rejected "BootMode" (FromString "UEFI")
    (singleSchema "BootMode"
      { typedSchema "Enumeration" with AllowableValues := ["UEFI"], ReadOnly := some true })
    { typedSchema "Enumeration" with AllowableValues := ["UEFI"], ReadOnly := some true }
    (by decide) (by decide)

/-- C3: for a present, writable `Integer` entry with both bounds set and a
value `v` supplied as an integer, or as a string on which `Atoi` succeeds with
result `v`, the call accepts exactly when `lower_bound ≤ v ≤ upper_bound`, and
otherwise returns the out-of-range error. The decimal text of every `int` is
such a string. -/
theorem integer_in_range_iff (name : String) (value : IntOrString) (schemas : SchemaMap)
    (schema : SettingSchema) (lo hi v : Int)
    (hentry : schemas name = some schema) (hro : schema.ReadOnly ≠ some true)
    (hty : schema.AttributeType = "Integer")
    (hlo : schema.LowerBound = some lo) (hhi : schema.UpperBound = some hi)
    (hv : (value.Typ ≠ TypeString ∧ value.IntVal = v) ∨
          (value.Typ = TypeString ∧ Atoi value.StrVal = (v, none))) :
    (CheckSettingIsValid name value schemas = none ↔ lo ≤ v ∧ v ≤ hi) ∧
    (¬ (lo ≤ v ∧ v ≤ hi) →
      CheckSettingIsValid name value schemas =
        some ("Setting " ++ name ++ " integer " ++ value.String ++
          " is out of range, " ++ Itoa lo ++ " - " ++ Itoa hi)) ∧
    (∀ n : Int, isInt n →
      (CheckSettingIsValid name (FromString (Itoa n)) schemas = none ↔ lo ≤ n ∧ n ≤ hi)) := by
  have key : ∀ (w : IntOrString) (u : Int), w.IntValue = u →
      (CheckSettingIsValid name w schemas = none ↔ lo ≤ u ∧ u ≤ hi) ∧
      (¬ (lo ≤ u ∧ u ≤ hi) →
        CheckSettingIsValid name w schemas =
          some ("Setting " ++ name ++ " integer " ++ w.String ++
            " is out of range, " ++ Itoa lo ++ " - " ++ Itoa hi)) := by
    intro w u hval
    rw [check_integer_bounds name w schemas schema lo hi hentry hro hty hlo hhi, hval]
    by_cases hin : lo ≤ u ∧ u ≤ hi
    · simp [hin]
    · have hin2 : ¬ (u ≥ lo ∧ u ≤ hi) := hin
      simp [hin, hin2]
  have hval : value.IntValue = v := by
    rcases hv with ⟨h1, h2⟩ | ⟨h1, h2⟩
    · simp [IntOrString.IntValue, h1, h2]
    · simp [IntOrString.IntValue, h1, h2]
  refine ⟨(key value v hval).1, (key value v hval).2, ?_⟩
  intro n hn
  exact (key (FromString (Itoa n)) n
    (by simp [IntOrString.IntValue, FromString, Atoi_Itoa n hn])).1

theorem integer_in_range_iff_witness :
    (CheckSettingIsValid "NumCores" (FromString "5")
        (singleSchema "NumCores"
          { typedSchema "Integer" with LowerBound := some 1, UpperBound := some 8 }) = none
      ↔ (1 : Int) ≤ 5 ∧ (5 : Int) ≤ 8) :=
  (integer_in_range_iff "NumCores" (FromString "5")
    (singleSchema "NumCores"
      { typedSchema "Integer" with LowerBound := some 1, UpperBound := some 8 })
    { typedSchema "Integer" with LowerBound := some 1, UpperBound := some 8 } 1 8 5
    (by decide) (by decide) (by decide) (by decide) (by decide)
    (Or.inr ⟨by decide, by decide⟩)).1

/-- C4 (the code at the failing input): with bounds `[0,10]` the strings `abc`
and the empty string, on which `Atoi` fails with a syntax error, are accepted,
because `IntValue` drops the error and yields 0. -/
theorem integer_unparsable_accepted :
    Atoi "abc" = (0, some NumError.ErrSyntax) ∧
    Atoi "" = (0, some NumError.ErrSyntax) ∧
    CheckSettingIsValid "NumCores" (FromString "abc")
      (singleSchema "NumCores"
        { typedSchema "Integer" with LowerBound := some 0, UpperBound := some 10 }) = none ∧
    CheckSettingIsValid "NumCores" (FromString "")
      (singleSchema "NumCores"
        { typedSchema "Integer" with LowerBound := some 0, UpperBound := some 10 }) = none := by
  decide

/-- C5: a value supplied as the `int32` `n` and the value supplied as the
decimal string of `n` validate identically (same acceptance, same error
text), for every schema table, name and attribute type. -/
theorem int_and_decimal_string_agree (name : String) (schemas : SchemaMap) (n : Int)
    (hn : isInt32 n) :
    CheckSettingIsValid name (FromInt32 n) schemas =
      CheckSettingIsValid name (FromString (Itoa n)) schemas := by
  apply check_congr
  · simp [IntOrString.String, IntOrString.IntValue, FromInt32, FromString, TypeInt, TypeString]
  · simp [IntOrString.IntValue, FromInt32, FromString, TypeInt, TypeString, Atoi_Itoa n ⟨by unfold isInt32 at hn; omega, by unfold isInt32 at hn; omega⟩]

theorem int_and_decimal_string_agree_witness :
    isInt32 5 ∧
    CheckSettingIsValid "NumCores" (FromInt32 5)
      (singleSchema "NumCores"
        { typedSchema "Integer" with LowerBound := some 1, UpperBound := some 8 }) =
    CheckSettingIsValid "NumCores" (FromString "5")
      (singleSchema "NumCores"
        { typedSchema "Integer" with LowerBound := some 1, UpperBound := some 8 }) :=
  ⟨by decide, int_and_decimal_string_agree "NumCores"
    (singleSchema "NumCores"
      { typedSchema "Integer" with LowerBound := some 1, UpperBound := some 8 }) 5 (by decide)⟩

/-- C6: for a present, writable `Enumeration` entry the call accepts exactly
when the string form of the value is a member of `allowable_values` (string
equality, so case-sensitive); otherwise it returns the invalid-enum error; with
an empty list every value is rejected. -/
theorem enumeration_accepts_iff_member (name : String) (value : IntOrString)
    (schemas : SchemaMap) (schema : SettingSchema)
    (hentry : schemas name = some schema) (hro : schema.ReadOnly ≠ some true)
    (hty : schema.AttributeType = "Enumeration") :
    (CheckSettingIsValid name value schemas = none ↔ value.String ∈ schema.AllowableValues) ∧
    (value.String ∉ schema.AllowableValues →
      CheckSettingIsValid name value schemas =
        some ("Setting " ++ name ++ " uses invalid enum " ++ value.String)) ∧
    (schema.AllowableValues = [] → CheckSettingIsValid name value schemas ≠ none) := by
  rw [check_enumeration name value schemas schema hentry hro hty]
  by_cases hm : value.String ∈ schema.AllowableValues
  · have hl := (enumLoop_iff _ _).mpr hm
    simp only [hl, if_true, hm, true_iff, not_true_eq_false, false_implies, true_and]
    intro h
    rw [h] at hm
    simp at hm
  · have hl : enumLoop value.String schema.AllowableValues = false := by
      cases hb : enumLoop value.String schema.AllowableValues
      · rfl
      · exact absurd ((enumLoop_iff _ _).mp hb) hm
    simp [hl, hm]

theorem enumeration_accepts_iff_member_witness :
    CheckSettingIsValid "Boot Order" (FromString "Legacy")
      (singleSchema "Boot Order"
        { typedSchema "Enumeration" with AllowableValues := ["Legacy", "UEFI"] }) = none ∧
    CheckSettingIsValid "Boot Order" (FromString "legacy")
      (singleSchema "Boot Order"
        { typedSchema "Enumeration" with AllowableValues := ["Legacy", "UEFI"] }) =
      some "Setting Boot Order uses invalid enum legacy" :=
  ⟨(enumeration_accepts_iff_member "Boot Order" (FromString "Legacy")
      (singleSchema "Boot Order"
        { typedSchema "Enumeration" with AllowableValues := ["Legacy", "UEFI"] })
      { typedSchema "Enumeration" with AllowableValues := ["Legacy", "UEFI"] }
      (by decide) (by decide) (by decide)).1.mpr (by decide),
   (enumeration_accepts_iff_member "Boot Order" (FromString "legacy")
      (singleSchema "Boot Order"
        { typedSchema "Enumeration" with AllowableValues := ["Legacy", "UEFI"] })
      { typedSchema "Enumeration" with AllowableValues := ["Legacy", "UEFI"] }
      (by decide) (by decide) (by decide)).2.1 (by decide)⟩

/-- C7: for a present, writable `Integer` entry in which `lower_bound` or
`upper_bound` is absent, every value is accepted: any integer and any string,
parsable or not; a single configured bound is not enforced. -/
theorem integer_incomplete_bounds_accepts (name : String) (value : IntOrString)
    (schemas : SchemaMap) (schema : SettingSchema)
    (hentry : schemas name = some schema) (hro : schema.ReadOnly ≠ some true)
    (hty : schema.AttributeType = "Integer")
    (hb : schema.LowerBound = none ∨ schema.UpperBound = none) :
    CheckSettingIsValid name value schemas = none := by
  rcases hb with hb | hb
  · simp [CheckSettingIsValid, hentry, hro, hty, hb]
  · cases hlo : schema.LowerBound <;> simp [CheckSettingIsValid, hentry, hro, hty, hb, hlo]

theorem integer_incomplete_bounds_accepts_witness :
    CheckSettingIsValid "NumCores" (FromString "not a number")
      (singleSchema "NumCores" { typedSchema "Integer" with LowerBound := some 1 }) = none :=
  integer_incomplete_bounds_accepts "NumCores" (FromString "not a number")
    (singleSchema "NumCores" { typedSchema "Integer" with LowerBound := some 1 })
    { typedSchema "Integer" with LowerBound := some 1 }
    (by decide) (by decide) (by decide) (Or.inr (by decide))

/-- C8: for a present, writable `String` entry the call accepts exactly when
`min_length` is absent, or `max_length` is absent, or
`min_length ≤ L ≤ max_length`, where `L` is the byte length (Go `len`) of the
string form of the value; the string form of an integer-supplied value is its
decimal text. -/
theorem string_accepts_iff_length (name : String) (value : IntOrString)
    (schemas : SchemaMap) (schema : SettingSchema)
    (hentry : schemas name = some schema) (hro : schema.ReadOnly ≠ some true)
    (hty : schema.AttributeType = "String") :
    (CheckSettingIsValid name value schemas = none ↔
      (schema.MinLength = none ∨ schema.MaxLength = none ∨
        ∃ lo hi, schema.MinLength = some lo ∧ schema.MaxLength = some hi ∧
          lo ≤ (value.String.utf8ByteSize : Int) ∧ (value.String.utf8ByteSize : Int) ≤ hi)) ∧
    (value.Typ ≠ TypeString → value.String = Itoa value.IntVal) := by
  refine ⟨?_, fun ht => by simp [IntOrString.String, IntOrString.IntValue, ht]⟩
  cases hmin : schema.MinLength with
  | none =>
    simp [check_string_unbounded name value schemas schema hentry hro hty (Or.inl hmin)]
  | some lo =>
    cases hmax : schema.MaxLength with
    | none =>
      simp [check_string_unbounded name value schemas schema hentry hro hty (Or.inr hmax)]
    | some hi =>
      rw [check_string_bounds name value schemas schema lo hi hentry hro hty hmin hmax]
      by_cases hin : (value.String.utf8ByteSize : Int) ≥ lo ∧ (value.String.utf8ByteSize : Int) ≤ hi
      · simp [hin]
      · simp only [hin, if_false]
        constructor
        · intro h
          exact absurd h (by simp)
        · rintro (h | h | ⟨lo2, hi2, h1, h2, h3, h4⟩)
          · exact absurd h (by simp)
          · exact absurd h (by simp)
          · simp only [Option.some.injEq] at h1 h2
            subst h1 h2
            exact absurd ⟨h3, h4⟩ hin

theorem string_accepts_iff_length_witness :
    CheckSettingIsValid "AssetTag" (FromInt32 1234)
      (singleSchema "AssetTag"
        { typedSchema "String" with MinLength := some 1, MaxLength := some 4 }) = none :=
  (string_accepts_iff_length "AssetTag" (FromInt32 1234)
    (singleSchema "AssetTag"
      { typedSchema "String" with MinLength := some 1, MaxLength := some 4 })
    { typedSchema "String" with MinLength := some 1, MaxLength := some 4 }
    (by decide) (by decide) (by decide)).1.mpr
    (Or.inr (Or.inr ⟨1, 4, rfl, rfl, by decide, by decide⟩))

/-- C9 (counterexample): a string of exactly 10 characters, each of them a
two-byte character, is rejected by a `String` entry with bounds `[1,10]`: its
length as the code measures it is 20. -/
theorem string_ten_chars_rejected :
    "éééééééééé".length = 10 ∧
    CheckSettingIsValid "AssetTag" (FromString "éééééééééé")
      (singleSchema "AssetTag"
        { typedSchema "String" with MinLength := some 1, MaxLength := some 10 }) =
      some "Setting AssetTag string éééééééééé length is out of range, 1 - 10" := by
  decide

/-- C9 (amended): for a present, writable `String` entry with `min_length = 1`
and `max_length = 10`, every string whose string form is exactly 10 bytes long
is accepted; a string of exactly 10 characters is accepted exactly when all its
characters are one-byte characters; every string of 11 characters is rejected;
the empty string is rejected. -/
theorem string_1_10_counted_in_bytes (name : String) (s : String)
    (schemas : SchemaMap) (schema : SettingSchema)
    (hentry : schemas name = some schema) (hro : schema.ReadOnly ≠ some true)
    (hty : schema.AttributeType = "String")
    (hmin : schema.MinLength = some 1) (hmax : schema.MaxLength = some 10) :
    (s.utf8ByteSize = 10 → CheckSettingIsValid name (FromString s) schemas = none) ∧
    (s.length = 10 →
      (CheckSettingIsValid name (FromString s) schemas = none ↔ ∀ c ∈ s.data, c.utf8Size = 1)) ∧
    (s.length = 11 → CheckSettingIsValid name (FromString s) schemas ≠ none) ∧
    CheckSettingIsValid name (FromString "") schemas ≠ none := by
  have hstr : ∀ t : String, (FromString t).String = t := by
    intro t
    simp [IntOrString.String, FromString]
  have hchk : ∀ t : String, (CheckSettingIsValid name (FromString t) schemas = none ↔
      1 ≤ t.utf8ByteSize ∧ t.utf8ByteSize ≤ 10) := by
    intro t
    rw [check_string_bounds name (FromString t) schemas schema 1 10 hentry hro hty hmin hmax,
      hstr]
    by_cases hin : 1 ≤ t.utf8ByteSize ∧ t.utf8ByteSize ≤ 10
    · have hin2 : (t.utf8ByteSize : Int) ≥ 1 ∧ (t.utf8ByteSize : Int) ≤ 10 := by omega
      simp [hin, hin2]
    · have hin2 : ¬ ((t.utf8ByteSize : Int) ≥ 1 ∧ (t.utf8ByteSize : Int) ≤ 10) := by omega
      simp [hin, hin2]
  have hge : s.length ≤ s.utf8ByteSize := utf8Len_ge_length s.data
  refine ⟨?_, ?_, ?_, ?_⟩
  · intro h
    exact (hchk s).mpr (by omega)
  · intro h
    rw [hchk s, ← utf8Len_eq_length_iff s.data]
    have h1 : String.utf8Len s.data = s.utf8ByteSize := rfl
    have h2 : s.data.length = s.length := rfl
    omega
  · intro h hacc
    have := (hchk s).mp hacc
    omega
  · intro hacc
    have := (hchk "").mp hacc
    have h0 : "".utf8ByteSize = 0 := by decide
    omega

theorem string_1_10_counted_in_bytes_witness :
    CheckSettingIsValid "AssetTag" (FromString "0123456789")
      (singleSchema "AssetTag"
        { typedSchema "String" with MinLength := some 1, MaxLength := some 10 }) = none :=
  (string_1_10_counted_in_bytes "AssetTag" "0123456789"
    (singleSchema "AssetTag"
      { typedSchema "String" with MinLength := some 1, MaxLength := some 10 })
    { typedSchema "String" with MinLength := some 1, MaxLength := some 10 }
    (by decide) (by decide) (by decide) (by decide) (by decide)).1 (by decide)

/-- C10: for a present, writable `Boolean` entry the call accepts exactly when
the string form of the value is `true` or `false`; otherwise it returns the
not-a-boolean error. The strings `True`, `1`, `yes`, the empty string and
every integer-supplied value are rejected. -/
theorem boolean_accepts_iff_literal (name : String) (value : IntOrString)
    (schemas : SchemaMap) (schema : SettingSchema)
    (hentry : schemas name = some schema) (hro : schema.ReadOnly ≠ some true)
    (hty : schema.AttributeType = "Boolean") :
    (CheckSettingIsValid name value schemas = none ↔
      (value.String = "true" ∨ value.String = "false")) ∧
    (¬ (value.String = "true" ∨ value.String = "false") →
      CheckSettingIsValid name value schemas =
        some ("Setting " ++ name ++ " is not a boolean - " ++ value.String)) ∧
    (∀ s ∈ ["True", "1", "yes", ""],
      CheckSettingIsValid name (FromString s) schemas ≠ none) ∧
    (∀ w : IntOrString, w.Typ ≠ TypeString → CheckSettingIsValid name w schemas ≠ none) := by
  have hiff : ∀ w : IntOrString, (CheckSettingIsValid name w schemas = none ↔
      (w.String = "true" ∨ w.String = "false")) := by
    intro w
    rw [check_boolean name w schemas schema hentry hro hty]
    by_cases hb : w.String = "true" ∨ w.String = "false"
    · simp [hb]
    · simp [hb]
  refine ⟨hiff value, ?_, ?_, ?_⟩
  · intro hb
    rw [check_boolean name value schemas schema hentry hro hty]
    simp [hb]
  · intro s hs hacc
    have h := (hiff (FromString s)).mp hacc
    have hstr : (FromString s).String = s := by simp [IntOrString.String, FromString]
    rw [hstr] at h
    simp only [List.mem_cons, List.mem_singleton, List.not_mem_nil, or_false] at hs
    rcases hs with rfl | rfl | rfl | rfl <;> exact absurd h (by decide)
  · intro w hw hacc
    have h := (hiff w).mp hacc
    have hstr : w.String = Itoa w.IntVal := by
      simp [IntOrString.String, IntOrString.IntValue, hw]
    rw [hstr] at h
    have hne := Itoa_ne_true_false w.IntVal
    rcases h with h | h
    · exact hne.1 h
    · exact hne.2 h

theorem boolean_accepts_iff_literal_witness :
    CheckSettingIsValid "QuietBoot" (FromString "true")
      (singleSchema "QuietBoot" (typedSchema "Boolean")) = none ∧
    CheckSettingIsValid "QuietBoot" (FromInt32 1)
      (singleSchema "QuietBoot" (typedSchema "Boolean")) ≠ none :=
  ⟨(boolean_accepts_iff_literal "QuietBoot" (FromString "true")
      (singleSchema "QuietBoot" (typedSchema "Boolean")) (typedSchema "Boolean")
      (by decide) (by decide) (by decide)).1.mpr (by decide),
   (boolean_accepts_iff_literal "QuietBoot" (FromString "true")
      (singleSchema "QuietBoot" (typedSchema "Boolean")) (typedSchema "Boolean")
      (by decide) (by decide) (by decide)).2.2.2 (FromInt32 1) (by decide)⟩

/-- C11: a present entry of type `Password` is rejected for every value and
whatever its other fields hold; when it is not read-only the error is the
password error. -/
theorem password_rejected (name : String) (value : IntOrString) (schemas : SchemaMap)
    (schema : SettingSchema)
    (hentry : schemas name = some schema) (hty : schema.AttributeType = "Password") :
    CheckSettingIsValid name value schemas ≠ none ∧
    (schema.ReadOnly = some true →
      CheckSettingIsValid name value schemas = some ("Setting " ++ name ++ " is ReadOnly")) ∧
    (schema.ReadOnly ≠ some true →
      CheckSettingIsValid name value schemas =
        some ("Setting " ++ name ++ " is a Password type")) := by
  by_cases hro : schema.ReadOnly = some true
  · simp [CheckSettingIsValid, hentry, hro]
  · simp [CheckSettingIsValid, hentry, hro, hty]

theorem password_rejected_witness :
    CheckSettingIsValid "AdminPassword" (FromString "")
      (singleSchema "AdminPassword" (typedSchema "Password")) =
      some "Setting AdminPassword is a Password type" :=
  (password_rejected "AdminPassword" (FromString "")
    (singleSchema "AdminPassword" (typedSchema "Password")) (typedSchema "Password")
    (by decide) (by decide)).2.2 (by decide)

/-- C12: a present, writable entry whose `attribute_type` is the empty string
accepts every value, whatever its other fields hold. -/
theorem unset_type_accepts (name : String) (value : IntOrString) (schemas : SchemaMap)
    (schema : SettingSchema)
    (hentry : schemas name = some schema) (hro : schema.ReadOnly ≠ some true)
    (hty : schema.AttributeType = "") :
    CheckSettingIsValid name value schemas = none := by
  simp [CheckSettingIsValid, hentry, hro, hty]

theorem unset_type_accepts_witness :
    CheckSettingIsValid "ProcTurbo" (FromInt32 (-3))
      (singleSchema "ProcTurbo"
        { typedSchema "" with AllowableValues := ["a"], LowerBound := some 1, MinLength := some 5 }) = none :=
  unset_type_accepts "ProcTurbo" (FromInt32 (-3))
    (singleSchema "ProcTurbo"
      { typedSchema "" with AllowableValues := ["a"], LowerBound := some 1, MinLength := some 5 })
    { typedSchema "" with AllowableValues := ["a"], LowerBound := some 1, MinLength := some 5 }
    (by decide) (by decide) (by decide)

/-- C13: a present, writable entry whose `attribute_type` is none of
`Enumeration`, `Integer`, `String`, `Boolean`, `Password` and the empty string
is rejected for every value with the unexpected-attribute-type error; an entry
whose type is one of those six never gets an error with that text. -/
theorem unexpected_type_rejected (name : String) (value : IntOrString) (schemas : SchemaMap)
    (schema : SettingSchema) (hentry : schemas name = some schema) :
    (schema.ReadOnly ≠ some true → schema.AttributeType ∉ knownTypes →
      CheckSettingIsValid name value schemas =
        some ("Setting " ++ name ++ " has an unexpected attribute type " ++
          schema.AttributeType)) ∧
    (schema.AttributeType ∈ knownTypes → ∀ t : String,
      CheckSettingIsValid name value schemas ≠
        some ("Setting " ++ name ++ " has an unexpected attribute type " ++ t)) := by
  constructor
  · intro hro hty
    simp only [knownTypes, List.mem_cons, List.mem_singleton, List.not_mem_nil, or_false,
      not_or] at hty
    obtain ⟨h1, h2, h3, h4, h5, h6⟩ := hty
    simp [CheckSettingIsValid, hentry, hro, h1, h2, h3, h4, h5, h6]
  · intro hk t h
    rcases check_outcome name value schemas with hnone | ⟨msg, c, rest, hmsg, hdata, hh⟩
    · rw [hnone] at h
      exact absurd h (by simp)
    · rw [hmsg] at h
      simp only [Option.some.injEq] at h
      by_cases hc : c = 'h'
      · obtain ⟨schema2, hs2, _, hty2, _⟩ := hh hc
        rw [hentry] at hs2
        simp only [Option.some.injEq] at hs2
        subst hs2
        exact hty2 hk
      · exact setting_text_ne name msg t c rest hdata hc h

theorem unexpected_type_rejected_witness :
    CheckSettingIsValid "BootMode" (FromString "UEFI")
      (singleSchema "BootMode" (typedSchema "integer")) =
      some "Setting BootMode has an unexpected attribute type integer" ∧
    CheckSettingIsValid "BootMode" (FromString "UEFI")
      (singleSchema "BootMode" (typedSchema "Boolean")) ≠
      some "Setting BootMode has an unexpected attribute type Boolean" :=
  ⟨(unexpected_type_rejected "BootMode" (FromString "UEFI")
      (singleSchema "BootMode" (typedSchema "integer")) (typedSchema "integer")
      (by decide)).1 (by decide) (by decide),
   (unexpected_type_rejected "BootMode" (FromString "UEFI")
      (singleSchema "BootMode" (typedSchema "Boolean")) (typedSchema "Boolean")
      (by decide)).2 (by decide) "Boolean"⟩

/-- C14: the call never panics and always decides: with every pointer
dereference of the source made explicit, the result is never a panic but the
value of `CheckSettingIsValid`, for every table, name and value and every
combination of present and absent optional fields; that value is either `nil`
or an error whose text starts with `Setting <name>` and goes on with a
reason. -/
theorem never_panics (name : String) (value : IntOrString) (schemas : SchemaMap) :
    CheckSettingIsValidPtr name value schemas =
      Except.ok (CheckSettingIsValid name value schemas) ∧
    (CheckSettingIsValid name value schemas = none ∨
      ∃ reason : String, reason ≠ "" ∧
        CheckSettingIsValid name value schemas = some ("Setting " ++ name ++ reason)) := by
  refine ⟨checkPtr_eq_ok name value schemas, ?_⟩
  rcases check_outcome name value schemas with hnone | ⟨msg, c, rest, hmsg, hdata, _⟩
  · exact Or.inl hnone
  · refine Or.inr ⟨⟨' ' :: c :: rest⟩, ?_, ?_⟩
    · intro h
      have := congrArg String.data h
      simp at this
    · rw [hmsg]
      congr 1
      apply String.ext
      rw [hdata]
      simp only [String.data_append, List.append_assoc]

/-- C15: two constraint definitions with the same `attribute_type` and
`read_only` that agree on the fields of that type (`allowable_values` for
`Enumeration`, the integer bounds for `Integer`, the length bounds for
`String`, nothing for the other types) give the same result for every name and
value, whatever their remaining fields hold. -/
theorem irrelevant_fields_ignored (name : String) (value : IntOrString)
    (schemas1 schemas2 : SchemaMap) (s1 s2 : SettingSchema)
    (h1 : schemas1 name = some s1) (h2 : schemas2 name = some s2)
    (hty : s1.AttributeType = s2.AttributeType) (hro : s1.ReadOnly = s2.ReadOnly)
    (henum : s1.AttributeType = "Enumeration" → s1.AllowableValues = s2.AllowableValues)
    (hint : s1.AttributeType = "Integer" →
      s1.LowerBound = s2.LowerBound ∧ s1.UpperBound = s2.UpperBound)
    (hstr : s1.AttributeType = "String" →
      s1.MinLength = s2.MinLength ∧ s1.MaxLength = s2.MaxLength) :
    CheckSettingIsValid name value schemas1 = CheckSettingIsValid name value schemas2 := by
  simp only [CheckSettingIsValid, h1, h2, ← hty, ← hro]
  by_cases hr : s1.ReadOnly = some true
  · simp only [hr, if_true]
  · simp only [hr, if_false]
    by_cases he : s1.AttributeType = "Enumeration"
    · simp only [he, if_true, ← henum he]
    · simp only [he, if_false]
      by_cases hi : s1.AttributeType = "Integer"
      · simp only [hi, if_true, ← (hint hi).1, ← (hint hi).2]
      · simp only [hi, if_false]
        by_cases hs : s1.AttributeType = "String"
        · simp only [hs, if_true, ← (hstr hs).1, ← (hstr hs).2]
        · simp only [hs, if_false]

theorem irrelevant_fields_ignored_witness :
    CheckSettingIsValid "QuietBoot" (FromString "yes")
      (singleSchema "QuietBoot" (typedSchema "Boolean")) =
    CheckSettingIsValid "QuietBoot" (FromString "yes")
      (singleSchema "QuietBoot"
        { typedSchema "Boolean" with AllowableValues := ["yes"], ResetRequired := some true }) :=
  irrelevant_fields_ignored "QuietBoot" (FromString "yes")
    (singleSchema "QuietBoot" (typedSchema "Boolean"))
    (singleSchema "QuietBoot"
      { typedSchema "Boolean" with AllowableValues := ["yes"], ResetRequired := some true })
    (typedSchema "Boolean")
    { typedSchema "Boolean" with AllowableValues := ["yes"], ResetRequired := some true }
    (by decide) (by decide) (by decide) (by decide)
    (fun h => absurd h (by decide)) (fun h => absurd h (by decide))
    (fun h => absurd h (by decide))

/-- C16: the call consults only the entry of the name it is given: two schema
tables that agree on the lookup of that name give the same result, and storing
an entry under any other name does not change the result. -/
theorem one_entry_consulted (name : String) (value : IntOrString)
    (schemas1 schemas2 : SchemaMap) (h : schemas1 name = schemas2 name) :
    CheckSettingIsValid name value schemas1 = CheckSettingIsValid name value schemas2 ∧
    (∀ (key : String) (schema : SettingSchema), key ≠ name →
      CheckSettingIsValid name value (schemas1.store key schema) =
        CheckSettingIsValid name value schemas1) := by
  constructor
  · simp only [CheckSettingIsValid, h]
  · intro key schema hk
    have hl : (schemas1.store key schema) name = schemas1 name := by
      simp [SchemaMap.store, Ne.symm hk]
    simp only [CheckSettingIsValid, hl]

theorem one_entry_consulted_witness :
    CheckSettingIsValid "QuietBoot" (FromString "true")
      (singleSchema "QuietBoot" (typedSchema "Boolean")) =
    CheckSettingIsValid "QuietBoot" (FromString "true")
      ((singleSchema "QuietBoot" (typedSchema "Boolean")).store "BootMode"
        (typedSchema "Password")) :=
  (one_entry_consulted "QuietBoot" (FromString "true")
    (singleSchema "QuietBoot" (typedSchema "Boolean"))
    ((singleSchema "QuietBoot" (typedSchema "Boolean")).store "BootMode"
      (typedSchema "Password")) (by decide)).1

/-- C17: when a present, writable `Integer` entry with both bounds rejects a
value, the error text is `Setting <name> integer <value> is out of range,
<lower_bound> - <upper_bound>`, and when a `String` entry with both length
bounds rejects a value the text is `Setting <name> string <value> length is
out of range, <min_length> - <max_length>`: the lower bound first, both in
decimal, also when the lower bound is greater than the upper bound (then every
value is rejected). -/
theorem range_texts_carry_bounds (name : String) (value : IntOrString) (schemas : SchemaMap)
    (schema : SettingSchema) (lo hi : Int)
    (hentry : schemas name = some schema) (hro : schema.ReadOnly ≠ some true) :
    (schema.AttributeType = "Integer" → schema.LowerBound = some lo →
      schema.UpperBound = some hi →
      (CheckSettingIsValid name value schemas ≠ none ∨ hi < lo) →
      CheckSettingIsValid name value schemas =
        some ("Setting " ++ name ++ " integer " ++ value.String ++
          " is out of range, " ++ Itoa lo ++ " - " ++ Itoa hi)) ∧
    (schema.AttributeType = "String" → schema.MinLength = some lo →
      schema.MaxLength = some hi →
      (CheckSettingIsValid name value schemas ≠ none ∨ hi < lo) →
      CheckSettingIsValid name value schemas =
        some ("Setting " ++ name ++ " string " ++ value.String ++
          " length is out of range, " ++ Itoa lo ++ " - " ++ Itoa hi)) := by
  constructor
  · intro hty hlo hhi hrej
    rw [check_integer_bounds name value schemas schema lo hi hentry hro hty hlo hhi] at hrej ⊢
    by_cases hin : value.IntValue ≥ lo ∧ value.IntValue ≤ hi
    · rcases hrej with hrej | hrej
      · simp [hin] at hrej
      · omega
    · simp [hin]
  · intro hty hlo hhi hrej
    rw [check_string_bounds name value schemas schema lo hi hentry hro hty hlo hhi] at hrej ⊢
    by_cases hin : (value.String.utf8ByteSize : Int) ≥ lo ∧ (value.String.utf8ByteSize : Int) ≤ hi
    · rcases hrej with hrej | hrej
      · simp [hin] at hrej
      · omega
    · simp [hin]

theorem range_texts_carry_bounds_witness :
    CheckSettingIsValid "NumCores" (FromInt32 5)
      (singleSchema "NumCores"
        { typedSchema "Integer" with LowerBound := some 8, UpperBound := some (-1) }) =
      some "Setting NumCores integer 5 is out of range, 8 - -1" :=
  ((range_texts_carry_bounds "NumCores" (FromInt32 5)
    (singleSchema "NumCores"
      { typedSchema "Integer" with LowerBound := some 8, UpperBound := some (-1) })
    { typedSchema "Integer" with LowerBound := some 8, UpperBound := some (-1) } 8 (-1)
    (by decide) (by decide)).1 (by decide) (by decide) (by decide)
    (Or.inr (by decide))).trans (by decide)

/-- C18 (counterexample): the rejection text of an `Enumeration` entry with
`allowable_values = [Legacy, UEFI]` for the value `foo` does not contain the
member `Legacy`. -/
theorem enum_text_lacks_allowed_set :
    CheckSettingIsValid "Boot Order" (FromString "foo")
      (singleSchema "Boot Order"
        { typedSchema "Enumeration" with AllowableValues := ["Legacy", "UEFI"] }) =
      some "Setting Boot Order uses invalid enum foo" ∧
    "Legacy" ∈ ["Legacy", "UEFI"] ∧
    ¬ containsText "Setting Boot Order uses invalid enum foo" "Legacy" := by
  decide

/-- C18 (amended): for a present, writable `Enumeration` entry and a value
that is not among `allowable_values`, the rejection text is exactly
`Setting <name> uses invalid enum <value>`; it contains the name of the setting
and the offending value, and it is the same text for every other list of
allowable values that lacks the value. -/
theorem enum_text_names_setting_and_value (name : String) (value : IntOrString)
    (schemas : SchemaMap) (schema : SettingSchema)
    (hentry : schemas name = some schema) (hro : schema.ReadOnly ≠ some true)
    (hty : schema.AttributeType = "Enumeration")
    (hrej : value.String ∉ schema.AllowableValues) :
    CheckSettingIsValid name value schemas =
      some ("Setting " ++ name ++ " uses invalid enum " ++ value.String) ∧
    containsText ("Setting " ++ name ++ " uses invalid enum " ++ value.String) name ∧
    containsText ("Setting " ++ name ++ " uses invalid enum " ++ value.String) value.String ∧
    (∀ avs : List String, value.String ∉ avs →
      CheckSettingIsValid name value
        (schemas.store name { schema with AllowableValues := avs }) =
      CheckSettingIsValid name value schemas) := by
  have htext : ∀ (tbl : SchemaMap) (sch : SettingSchema), tbl name = some sch →
      sch.ReadOnly ≠ some true → sch.AttributeType = "Enumeration" →
      value.String ∉ sch.AllowableValues →
      CheckSettingIsValid name value tbl =
        some ("Setting " ++ name ++ " uses invalid enum " ++ value.String) := by
    intro tbl sch h1 h2 h3 h4
    rw [check_enumeration name value tbl sch h1 h2 h3]
    have hl : enumLoop value.String sch.AllowableValues = false := by
      cases hb : enumLoop value.String sch.AllowableValues
      · rfl
      · exact absurd ((enumLoop_iff _ _).mp hb) h4
    simp [hl]
  refine ⟨htext schemas schema hentry hro hty hrej, ?_, ?_, ?_⟩
  · refine ⟨"Setting ".data, " uses invalid enum ".data ++ value.String.data, ?_⟩
    simp only [String.data_append, List.append_assoc]
  · refine ⟨"Setting ".data ++ name.data ++ " uses invalid enum ".data, [], ?_⟩
    simp only [String.data_append, List.append_assoc, List.append_nil]
  · intro avs havs
    rw [htext schemas schema hentry hro hty hrej]
    exact htext _ { schema with AllowableValues := avs } (by simp [SchemaMap.store])
      hro hty havs

theorem enum_text_names_setting_and_value_witness :
    CheckSettingIsValid "Boot Order" (FromString "legacy")
      (singleSchema "Boot Order"
        { typedSchema "Enumeration" with AllowableValues := ["Legacy", "UEFI"] }) =
      some "Setting Boot Order uses invalid enum legacy" :=
  (enum_text_names_setting_and_value "Boot Order" (FromString "legacy")
    (singleSchema "Boot Order"
      { typedSchema "Enumeration" with AllowableValues := ["Legacy", "UEFI"] })
    { typedSchema "Enumeration" with AllowableValues := ["Legacy", "UEFI"] }
    (by decide) (by decide) (by decide) (by decide)).1

/-- C19 (counterexample): `Atoi` fails on a string of twenty nines (a range
error), 0 lies within the bounds `[0,10]`, and yet the value is rejected:
`IntValue` yields the largest `int`, not 0. -/
theorem overflow_string_not_zero :
    Atoi "99999999999999999999" = (2 ^ 63 - 1, some NumError.ErrRange) ∧
    ((0 : Int) ≤ 0 ∧ (0 : Int) ≤ 10) ∧
    CheckSettingIsValid "NumCores" (FromString "99999999999999999999")
      (singleSchema "NumCores"
        { typedSchema "Integer" with LowerBound := some 0, UpperBound := some 10 }) =
      some "Setting NumCores integer 99999999999999999999 is out of range, 0 - 10" := by
  decide

/-- C19 (amended): for a present, writable `Integer` entry with both bounds
and a string value on which `Atoi` reports a syntax error, `IntValue` is 0 and
the call accepts exactly when `lower_bound ≤ 0 ≤ upper_bound`; on a string on
which `Atoi` reports a range error, `IntValue` is the bound of `int` on the
side of the sign, `-2^63` when the string starts with `-` and `2^63 - 1`
otherwise, and the call accepts exactly when that bound lies within the bounds
of the entry. -/
theorem unparsable_integer_value (name : String) (value : IntOrString) (schemas : SchemaMap)
    (schema : SettingSchema) (lo hi : Int)
    (hentry : schemas name = some schema) (hro : schema.ReadOnly ≠ some true)
    (hty : schema.AttributeType = "Integer")
    (hlo : schema.LowerBound = some lo) (hhi : schema.UpperBound = some hi)
    (hstr : value.Typ = TypeString) :
    ((Atoi value.StrVal).2 = some NumError.ErrSyntax →
      value.IntValue = 0 ∧
      (CheckSettingIsValid name value schemas = none ↔ lo ≤ 0 ∧ 0 ≤ hi)) ∧
    ((Atoi value.StrVal).2 = some NumError.ErrRange →
      value.StrVal.data.head? = some '-' →
      value.IntValue = -2 ^ 63 ∧
      (CheckSettingIsValid name value schemas = none ↔ lo ≤ -2 ^ 63 ∧ -2 ^ 63 ≤ hi)) ∧
    ((Atoi value.StrVal).2 = some NumError.ErrRange →
      value.StrVal.data.head? ≠ some '-' →
      value.IntValue = 2 ^ 63 - 1 ∧
      (CheckSettingIsValid name value schemas = none ↔ lo ≤ 2 ^ 63 - 1 ∧ 2 ^ 63 - 1 ≤ hi)) := by
  have hval : value.IntValue = (Atoi value.StrVal).1 := by
    simp [IntOrString.IntValue, hstr]
  have hiff : CheckSettingIsValid name value schemas = none ↔
      lo ≤ value.IntValue ∧ value.IntValue ≤ hi := by
    rw [check_integer_bounds name value schemas schema lo hi hentry hro hty hlo hhi]
    by_cases hin : lo ≤ value.IntValue ∧ value.IntValue ≤ hi
    · simp [hin]
    · have hin2 : ¬ (value.IntValue ≥ lo ∧ value.IntValue ≤ hi) := hin
      simp [hin, hin2]
  refine ⟨?_, ?_, ?_⟩
  · intro herr
    have h0 : value.IntValue = 0 := by
      rw [hval]
      exact (Atoi_error_value value.StrVal).1 herr
    refine ⟨h0, ?_⟩
    rw [hiff, h0]
  · intro herr hneg
    have h0 : value.IntValue = -2 ^ 63 := by
      rw [hval]
      exact ((Atoi_error_value value.StrVal).2 herr).1 hneg
    refine ⟨h0, ?_⟩
    rw [hiff, h0]
  · intro herr hpos
    have h0 : value.IntValue = 2 ^ 63 - 1 := by
      rw [hval]
      exact ((Atoi_error_value value.StrVal).2 herr).2 hpos
    refine ⟨h0, ?_⟩
    rw [hiff, h0]

theorem unparsable_integer_value_witness :
    CheckSettingIsValid "NumCores" (FromString "abc")
      (singleSchema "NumCores"
        { typedSchema "Integer" with LowerBound := some 0, UpperBound := some 10 }) = none ∧
    CheckSettingIsValid "NumCores" (FromString "abc")
      (singleSchema "NumCores"
        { typedSchema "Integer" with LowerBound := some 1, UpperBound := some 8 }) ≠ none ∧
    CheckSettingIsValid "NumCores" (FromString "-99999999999999999999")
      (singleSchema "NumCores"
        { typedSchema "Integer" with LowerBound := some (-2 ^ 63), UpperBound := some 0 })
      = none ∧
    CheckSettingIsValid "NumCores" (FromString "99999999999999999999")
      (singleSchema "NumCores"
        { typedSchema "Integer" with LowerBound := some (-2 ^ 63), UpperBound := some 0 })
      ≠ none :=
  ⟨(((unparsable_integer_value "NumCores" (FromString "abc")
      (singleSchema "NumCores"
        { typedSchema "Integer" with LowerBound := some 0, UpperBound := some 10 })
      { typedSchema "Integer" with LowerBound := some 0, UpperBound := some 10 } 0 10
      (by decide) (by decide) (by decide) (by decide) (by decide) (by decide)).1
      (by decide)).2).mpr (by decide),
   fun h => absurd ((((unparsable_integer_value "NumCores" (FromString "abc")
      (singleSchema "NumCores"
        { typedSchema "Integer" with LowerBound := some 1, UpperBound := some 8 })
      { typedSchema "Integer" with LowerBound := some 1, UpperBound := some 8 } 1 8
      (by decide) (by decide) (by decide) (by decide) (by decide) (by decide)).1
      (by decide)).2).mp h) (by decide),
   (((unparsable_integer_value "NumCores" (FromString "-99999999999999999999")
      (singleSchema "NumCores"
        { typedSchema "Integer" with LowerBound := some (-2 ^ 63), UpperBound := some 0 })
      { typedSchema "Integer" with LowerBound := some (-2 ^ 63), UpperBound := some 0 }
      (-2 ^ 63) 0
      (by decide) (by decide) (by decide) (by decide) (by decide) (by decide)).2.1
      (by decide) (by decide)).2).mpr (by decide),
   fun h => absurd ((((unparsable_integer_value "NumCores" (FromString "99999999999999999999")
      (singleSchema "NumCores"
        { typedSchema "Integer" with LowerBound := some (-2 ^ 63), UpperBound := some 0 })
      { typedSchema "Integer" with LowerBound := some (-2 ^ 63), UpperBound := some 0 }
      (-2 ^ 63) 0
      (by decide) (by decide) (by decide) (by decide) (by decide) (by decide)).2.2
      (by decide) (by decide)).2).mp h) (by decide)⟩

/-- C20: the map returned by `DriverInfo` holds `ilo_username`, `ilo_password`
and `ilo_address` with the username, the password and the hostname; it has the
key `ilo_verify_ca` (with value `false`) exactly when certificate verification
is disabled, the key `client_port` (with the port string) exactly when the
port string is not empty, and no other key. -/
theorem driverInfo_contents (a : bmc.iLOAccessDetails) (bmcCreds : bmc.Credentials) :
    a.DriverInfo bmcCreds "ilo_username" = some (bmc.DriverValue.str bmcCreds.Username) ∧
    a.DriverInfo bmcCreds "ilo_password" = some (bmc.DriverValue.str bmcCreds.Password) ∧
    a.DriverInfo bmcCreds "ilo_address" = some (bmc.DriverValue.str a.hostname) ∧
    (a.DriverInfo bmcCreds "ilo_verify_ca" ≠ none ↔ a.disableCertificateVerification = true) ∧
    (a.disableCertificateVerification = true →
      a.DriverInfo bmcCreds "ilo_verify_ca" = some (bmc.DriverValue.bool false)) ∧
    (a.DriverInfo bmcCreds "client_port" ≠ none ↔ a.portNum ≠ "") ∧
    (a.portNum ≠ "" →
      a.DriverInfo bmcCreds "client_port" = some (bmc.DriverValue.str a.portNum)) ∧
    (∀ k : String,
      k ∉ ["ilo_username", "ilo_password", "ilo_address", "ilo_verify_ca", "client_port"] →
      a.DriverInfo bmcCreds k = none) := by
  have e1 : ("ilo_username" = "client_port") = False := by decide
  have e2 : ("ilo_username" = "ilo_verify_ca") = False := by decide
  have e3 : ("ilo_username" = "ilo_address") = False := by decide
  have e4 : ("ilo_username" = "ilo_password") = False := by decide
  have e5 : ("ilo_password" = "client_port") = False := by decide
  have e6 : ("ilo_password" = "ilo_verify_ca") = False := by decide
  have e7 : ("ilo_password" = "ilo_address") = False := by decide
  have e8 : ("ilo_address" = "client_port") = False := by decide
  have e9 : ("ilo_address" = "ilo_verify_ca") = False := by decide
  have e10 : ("ilo_verify_ca" = "client_port") = False := by decide
  have e11 : ("client_port" = "ilo_verify_ca") = False := by decide
  have e12 : ("client_port" = "ilo_address") = False := by decide
  have e13 : ("client_port" = "ilo_password") = False := by decide
  have e14 : ("client_port" = "ilo_username") = False := by decide
  have e15 : ("ilo_verify_ca" = "ilo_address") = False := by decide
  have e16 : ("ilo_verify_ca" = "ilo_password") = False := by decide
  have e17 : ("ilo_verify_ca" = "ilo_username") = False := by decide
  cases hd : a.disableCertificateVerification <;> by_cases hp : a.portNum = "" <;>
    simp [bmc.iLOAccessDetails.DriverInfo, bmc.DriverInfoMap.set, bmc.DriverInfoMap.empty,
      hd, hp, e1, e2, e3, e4, e5, e6, e7, e8, e9, e10, e11, e12, e13, e14, e15, e16, e17] <;>
    intro k h1 h2 h3 h4 h5 <;> simp [h1, h2, h3, h4, h5]

theorem driverInfo_contents_witness :
    (bmc.iLOAccessDetails.mk "ilo4" "443" "192.168.122.1" true).DriverInfo
      (bmc.Credentials.mk "admin" "secret") "client_port" =
      some (bmc.DriverValue.str "443") :=
  (driverInfo_contents (bmc.iLOAccessDetails.mk "ilo4" "443" "192.168.122.1" true)
    (bmc.Credentials.mk "admin" "secret")).2.2.2.2.2.2.1 (by decide)
